import Mathlib

/-!
Shallow embedding of the BLE provisioning engine of
`cyberfly_sdk/ble_provision.py` (transport fragment framer, JSON
completeness detector, configuration processor), with proofs of the
specification claims about them.

Modelling conventions: raw bytes are `List Nat`, text is `List Char`
or `String`, MicroPython tick counters are `Nat` (non-wrapping within
one provisioning session) and `time.ticks_diff` is integer
subtraction.  All definitions are executable.
-/

namespace BleProv

/-- `_MAX_RX = const(384)` — fragment buffer capacity. -/
def MAX_RX : Nat := 384

/-- `_FRAGMENT_TIMEOUT_MS = const(2000)` — staleness window. -/
def FRAGMENT_TIMEOUT_MS : Int := 2000

/-- `time.ticks_diff(now, last)` on non-wrapping tick counters. -/
def ticksDiff (now last : Nat) : Int := (now : Int) - (last : Int)

/-- The framer's mutable state: `self._rx_buf` (byte accumulator) and
`self._last_frag_ms` (tick stamp of the last accepted fragment,
`0` doubling as the "no fragment yet" sentinel, as in `__init__`). -/
structure FramerState where
  rxBuf : List Nat
  lastFragMs : Nat
deriving DecidableEq, Repr

/-- `_reset_buffer`: clear the buffer and stamp the current tick. -/
def resetBuffer (now : Nat) : FramerState := ⟨[], now⟩

/-- The scan in `_append_fragment` for the fragment's first
non-whitespace byte; whitespace is `32, 9, 10, 13`. -/
def firstNonWs : List Nat → Option Nat
  | [] => none
  | c :: cs => if c = 32 ∨ c = 9 ∨ c = 10 ∨ c = 13 then firstNonWs cs else some c

/-- The size-capped append at the end of `_append_fragment`: append
`frag`; if the result would exceed `_MAX_RX`, keep `buf[-keep:] + frag`
for `keep = max(0, _MAX_RX - len(frag))` when `keep` is nonzero, else
`frag[-_MAX_RX:]` (newest bytes win). -/
def capAppend (buf frag : List Nat) : List Nat :=
  if buf.length + frag.length ≤ MAX_RX then buf ++ frag
  else if MAX_RX - frag.length ≠ 0 then
    buf.drop (buf.length - (MAX_RX - frag.length)) ++ frag
  else frag.drop (frag.length - MAX_RX)

/-- The two reset checks at the head of `_append_fragment`: discard a
stale partial (`_last_frag_ms` nonzero and older than the window),
then reset again if the fragment opens a new JSON object (first
non-whitespace byte `{` = 123). -/
def framerPre (s : FramerState) (now : Nat) (frag : List Nat) : FramerState :=
  let s1 := if s.lastFragMs ≠ 0 ∧ ticksDiff now s.lastFragMs > FRAGMENT_TIMEOUT_MS
    then resetBuffer now else s
  if firstNonWs frag = some 123 then resetBuffer now else s1

/-- `_append_fragment(frag)`: empty fragments return immediately;
otherwise the reset checks of `framerPre` run and the fragment is
appended under the size cap; `_last_frag_ms` is set to `now`. -/
def appendFragment (s : FramerState) (now : Nat) (frag : List Nat) : FramerState :=
  if frag = [] then s
  else ⟨capAppend (framerPre s now frag).rxBuf frag, now⟩

/-- Fresh framer state (`_rx_buf = bytearray()`, `_last_frag_ms = 0`). -/
def initFramer : FramerState := ⟨[], 0⟩

/-- A sequence of `(now, fragment)` append calls, oldest first. -/
def appendAll (s : FramerState) (calls : List (Nat × List Nat)) : FramerState :=
  calls.foldl (fun st c => appendFragment st c.1 c.2) s

lemma capAppend_length_le (buf frag : List Nat) :
    (capAppend buf frag).length ≤ MAX_RX := by
  unfold capAppend
  split
  · simpa using by omega
  · split
    · simp only [List.length_append, List.length_drop]
      omega
    · simp only [List.length_drop]
      omega

lemma capAppend_suffix (buf frag : List Nat) :
    (capAppend buf frag).IsSuffix (buf ++ frag) := by
  unfold capAppend
  split
  · exact List.suffix_refl _
  · split
    · exact ⟨buf.take (buf.length - (MAX_RX - frag.length)), by
        rw [← List.append_assoc, List.take_append_drop]⟩
    · exact ⟨buf ++ frag.take (frag.length - MAX_RX), by
        rw [List.append_assoc, List.take_append_drop]⟩

lemma capAppend_nil (frag : List Nat) :
    capAppend [] frag = frag.drop (frag.length - MAX_RX) := by
  unfold capAppend
  split
  · have h : frag.length - MAX_RX = 0 := by
      simp only [List.length_nil, Nat.zero_add] at *
      omega
    simp [h]
  · split
    · simp only [List.length_nil, Nat.zero_add] at *
      omega
    · rfl

lemma framerPre_rxBuf (s : FramerState) (now : Nat) (frag : List Nat) :
    (framerPre s now frag).rxBuf = [] ∨ (framerPre s now frag).rxBuf = s.rxBuf := by
  unfold framerPre
  dsimp only
  split
  · left; rfl
  · split
    · left; rfl
    · right; rfl

lemma appendFragment_length_le (s : FramerState) (now : Nat) (frag : List Nat)
    (h : s.rxBuf.length ≤ MAX_RX) :
    (appendFragment s now frag).rxBuf.length ≤ MAX_RX := by
  unfold appendFragment
  split
  · exact h
  · exact capAppend_length_le _ _

lemma appendFragment_lastFragMs (s : FramerState) (now : Nat) (frag : List Nat)
    (h : frag ≠ []) : (appendFragment s now frag).lastFragMs = now := by
  unfold appendFragment
  simp [h]

/-- **C5**: after any sequence of append calls starting from the fresh
framer, the buffer length never exceeds the 384-byte capacity; and on
every single append the retained bytes are a suffix of the
concatenation of the prior buffer contents and the fragment
(tail-preserving truncation, newest bytes kept). -/
theorem buffer_capacity_and_tail :
    (∀ calls : List (Nat × List Nat),
      (appendAll initFramer calls).rxBuf.length ≤ MAX_RX) ∧
    (∀ (s : FramerState) (now : Nat) (frag : List Nat),
      (appendFragment s now frag).rxBuf.IsSuffix (s.rxBuf ++ frag)) := by
  constructor
  · intro calls
    suffices h : ∀ (s : FramerState), s.rxBuf.length ≤ MAX_RX →
        (appendAll s calls).rxBuf.length ≤ MAX_RX by
      exact h initFramer (by simp [initFramer])
    induction calls with
    | nil => intro s hs; exact hs
    | cons c rest ih =>
        intro s hs
        exact ih _ (appendFragment_length_le s c.1 c.2 hs)
  · intro s now frag
    unfold appendFragment
    split
    · rename_i h
      subst h
      simp
    · refine List.IsSuffix.trans (capAppend_suffix _ frag) ?_
      rcases framerPre_rxBuf s now frag with h | h
      · rw [h]
        exact List.suffix_append _ _
      · rw [h]

lemma framerPre_rxBuf_of_brace (s : FramerState) (now : Nat) (frag : List Nat)
    (hbrace : firstNonWs frag = some 123) : (framerPre s now frag).rxBuf = [] := by
  unfold framerPre
  dsimp only
  rw [if_pos hbrace]
  rfl

/-- **C7**: a non-empty fragment whose first non-whitespace byte is
`{` always clears prior buffer contents before being appended,
regardless of the prior state and of staleness timing; afterwards the
buffer holds exactly the fragment's bytes, up to the capacity bound
(the newest `MAX_RX` of them). -/
theorem reset_on_new_object (s : FramerState) (now : Nat) (frag : List Nat)
    (hne : frag ≠ []) (hbrace : firstNonWs frag = some 123) :
    (appendFragment s now frag).rxBuf = frag.drop (frag.length - MAX_RX) ∧
    (frag.length ≤ MAX_RX → (appendFragment s now frag).rxBuf = frag) := by
  have h1 : appendFragment s now frag =
      ⟨capAppend (framerPre s now frag).rxBuf frag, now⟩ := by
    unfold appendFragment
    rw [if_neg hne]
  have h2 : (appendFragment s now frag).rxBuf = frag.drop (frag.length - MAX_RX) := by
    rw [h1]
    dsimp only
    rw [framerPre_rxBuf_of_brace s now frag hbrace, capAppend_nil]
  refine ⟨h2, fun hle => ?_⟩
  rw [h2, Nat.sub_eq_zero_of_le hle, List.drop_zero]

theorem reset_on_new_object_witness :
    (appendFragment ⟨[50, 51], 7⟩ 9 [32, 123, 125]).rxBuf = [32, 123, 125] :=
  (reset_on_new_object ⟨[50, 51], 7⟩ 9 [32, 123, 125] (by decide) (by decide)).2
    (by decide)

/-- **C6** is false as stated: with fragment `A = [97]` arriving at
tick `0` (recorded timestamp `0` is the framer's "no fragment yet"
sentinel) and `B = [98]` arriving `3000 ms > 2000 ms` later, the stale
partial is not discarded and the buffer holds `A ++ B`; and with an
empty `B` arriving after the window, the buffer still holds `A`. -/
theorem staleness_claim_cex :
    (ticksDiff 3000 0 > FRAGMENT_TIMEOUT_MS ∧
      (appendFragment (appendFragment initFramer 0 [97]) 3000 [98]).rxBuf ≠ [98]) ∧
    (ticksDiff 3002 1 > FRAGMENT_TIMEOUT_MS ∧
      (appendFragment (appendFragment initFramer 1 [97]) 3002 []).rxBuf ≠ []) := by
  decide

/-- **C6 (amended)**: if a non-empty fragment `A` is appended at a
nonzero tick `tA`, no fragment arrives for longer than the 2000 ms
staleness window, and then a non-empty fragment `B` is appended, the
buffer immediately after appending `B` contains only `B`'s bytes (the
newest `MAX_RX` of them; all of `B` when it fits). -/
theorem staleness_eviction_amended (s : FramerState) (A B : List Nat) (tA tB : Nat)
    (hA : A ≠ []) (hB : B ≠ []) (htA : tA ≠ 0)
    (hgap : ticksDiff tB tA > FRAGMENT_TIMEOUT_MS) :
    (appendFragment (appendFragment s tA A) tB B).rxBuf =
      B.drop (B.length - MAX_RX) := by
  set s1 := appendFragment s tA A with hs1
  have hlast : s1.lastFragMs = tA := appendFragment_lastFragMs s tA A hA
  have hpre : (framerPre s1 tB B).rxBuf = [] := by
    unfold framerPre
    dsimp only
    rw [hlast]
    split
    · rfl
    · rw [if_pos ⟨htA, hgap⟩]
      rfl
  have happ : appendFragment s1 tB B =
      ⟨capAppend (framerPre s1 tB B).rxBuf B, tB⟩ := by
    unfold appendFragment
    rw [if_neg hB]
  rw [happ]
  dsimp only
  rw [hpre, capAppend_nil]

theorem staleness_eviction_amended_witness :
    (appendFragment (appendFragment initFramer 1 [97]) 3002 [98]).rxBuf = [98] :=
  (staleness_eviction_amended initFramer [97] [98] 1 3002 (by decide) (by decide)
    (by decide) (by decide)).trans (by decide)

/-- **C9** is false as stated: a call with an empty fragment returns
immediately, leaving the whole framer state — including
`_last_frag_ms` — unchanged, so the timestamp is not refreshed to the
current tick. -/
theorem append_empty_cex :
    appendFragment ⟨[120], 5⟩ 10 [] = (⟨[120], 5⟩ : FramerState) ∧
    (appendFragment ⟨[120], 5⟩ 10 []).lastFragMs ≠ 10 := by
  decide

/-- **C9 (amended)**: on every call with a non-empty fragment the
framer performs its defined steps and updates `_last_frag_ms` to the
current tick; a call with an empty fragment is ignored entirely and
leaves the framer state unchanged. -/
theorem append_timestamp_amended (s : FramerState) (now : Nat) (frag : List Nat) :
    (frag ≠ [] → (appendFragment s now frag).lastFragMs = now) ∧
    appendFragment s now [] = s := by
  refine ⟨appendFragment_lastFragMs s now frag, ?_⟩
  unfold appendFragment
  rw [if_pos rfl]

theorem append_timestamp_amended_witness :
    (appendFragment initFramer 7 [99]).lastFragMs = 7 ∧
    appendFragment initFramer 7 [] = initFramer :=
  ⟨(append_timestamp_amended initFramer 7 [99]).1 (by decide),
    (append_timestamp_amended initFramer 7 []).2⟩

/-! ### JSON completeness detector (`_is_complete`) -/

/-- The opening brace character. -/
def lbrace : Char := Char.ofNat 123

/-- The closing brace character. -/
def rbrace : Char := Char.ofNat 125

/-- Whitespace stripped by Python `str.strip()` / MicroPython:
space, tab, LF, CR, VT, FF. -/
def isJsonWs (c : Char) : Bool :=
  c == ' ' || c == '\t' || c == '\n' || c == '\r' ||
    c == Char.ofNat 11 || c == Char.ofNat 12

/-- Python `s.strip()` on a character list. -/
def stripChars (s : List Char) : List Char :=
  ((s.dropWhile isJsonWs).reverse.dropWhile isJsonWs).reverse

/-- Value of a hexadecimal digit, for `\uXXXX` escapes. -/
def hexVal (c : Char) : Option Nat :=
  if '0' ≤ c ∧ c ≤ '9' then some (c.toNat - 48)
  else if 'a' ≤ c ∧ c ≤ 'f' then some (c.toNat - 87)
  else if 'A' ≤ c ∧ c ≤ 'F' then some (c.toNat - 70)
  else none

/-- JSON single-character escapes. -/
def escChar (c : Char) : Option Char :=
  if c = '\"' then some '\"'
  else if c = '\\' then some '\\'
  else if c = '/' then some '/'
  else if c = 'b' then some (Char.ofNat 8)
  else if c = 'f' then some (Char.ofNat 12)
  else if c = 'n' then some '\n'
  else if c = 'r' then some '\r'
  else if c = 't' then some '\t'
  else none

/-- Body of a JSON string literal after the opening quote; succeeds
only when the closing quote is the last character of the input (the
detector hands `json.loads` an already-stripped text, so any trailing
characters mean the parse raises). -/
def strBody : List Char → Option (List Char)
  | [] => none
  | '\"' :: rest => if rest = [] then some [] else none
  | '\\' :: 'u' :: h1 :: h2 :: h3 :: h4 :: rest =>
    match hexVal h1, hexVal h2, hexVal h3, hexVal h4 with
    | some v1, some v2, some v3, some v4 =>
      (strBody rest).map (fun t => Char.ofNat (((v1 * 16 + v2) * 16 + v3) * 16 + v4) :: t)
    | _, _, _, _ => none
  | '\\' :: e :: rest =>
    match escChar e with
    | some ec => (strBody rest).map (fun t => ec :: t)
    | none => none
  | '\\' :: [] => none
  | c :: rest => (strBody rest).map (fun t => c :: t)

/-- `json.loads` applied to a text that begins with a double quote:
the whole text must be one JSON string literal. -/
def parseJsonStrLit (s : List Char) : Option (List Char) :=
  match s with
  | '\"' :: rest => strBody rest
  | _ => none

/-- The one-level unwrap at the head of `_is_complete`: when the
stripped text both starts and ends with a double quote, `json.loads`
it and strip the inner string; a parse failure is reported as `none`
(the code returns incomplete there). -/
def unwrapQuoted (s : List Char) : Option (List Char) :=
  if s.head? = some '\"' ∧ s.getLast? = some '\"' then
    match parseJsonStrLit s with
    | some inner => some (stripChars inner)
    | none => none
  else some s

/-- The brace-depth walk of `_is_complete`: braces inside string
literals are ignored, backslash sets a one-character escape state, and
a depth that would go negative aborts with `none`. -/
def braceWalk : List Char → Nat → Bool → Bool → Option Nat
  | [], depth, _, _ => some depth
  | c :: rest, depth, inStr, esc =>
    if esc then braceWalk rest depth inStr false
    else if c = '\\' then braceWalk rest depth inStr true
    else if c = '\"' then braceWalk rest depth (!inStr) false
    else if inStr then braceWalk rest depth inStr false
    else if c = lbrace then braceWalk rest (depth + 1) inStr false
    else if c = rbrace then
      if depth = 0 then none else braceWalk rest (depth - 1) inStr false
    else braceWalk rest depth inStr false

/-- `_is_complete(txt)`: strip; empty is incomplete; optionally unwrap
one level of JSON string quoting; require a leading `{` and trailing
`}`; complete iff the brace walk ends at depth exactly zero. -/
def isComplete (txt : List Char) : Bool :=
  let s := stripChars txt
  if s = [] then false
  else
    match unwrapQuoted s with
    | none => false
    | some u =>
      (u.head? == some lbrace) && (u.getLast? == some rbrace) &&
        (braceWalk u 0 false false == some 0)

/-- `_is_complete` on a `String`. -/
def isCompleteS (t : String) : Bool := isComplete t.data

lemma stripChars_eq_nil_of_ws (txt : List Char) (h : ∀ c ∈ txt, isJsonWs c = true) :
    stripChars txt = [] := by
  unfold stripChars
  rw [List.dropWhile_eq_nil_iff.mpr h]
  simp

/-- **C1**: the completeness detector returns the spec's verdict on
each fixture (`{}` complete; `{"a":1` incomplete; `{"a":"}"}` complete
with the brace inside the string not counted; the escaped-quote
fixture `{"a":"\\"}"}` not miscounted, hence complete; the
double-quoted wrapper `"{\"a\":1}"` complete after one unwrap;
whitespace-only text incomplete), and in general it is complete iff,
after optional one-level quote unwrapping, the stripped text starts
with `{`, ends with `}`, and the brace walk — ignoring braces inside
string literals, honoring backslash escapes, aborting on negative
depth — ends at exactly zero. -/
theorem completeness_detector_correct :
    isCompleteS "\x7b\x7d" = true ∧
    isCompleteS "\x7b\"a\":1" = false ∧
    isCompleteS "\x7b\"a\":\"\x7d\"\x7d" = true ∧
    isCompleteS "\x7b\"a\":\"\\\\\"\x7d\"\x7d" = true ∧
    isCompleteS "\"\x7b\\\"a\\\":1\x7d\"" = true ∧
    (∀ txt : List Char, (∀ c ∈ txt, isJsonWs c = true) → isComplete txt = false) ∧
    (∀ txt : List Char, isComplete txt = true ↔
      ∃ u, unwrapQuoted (stripChars txt) = some u ∧ u.head? = some lbrace ∧
        u.getLast? = some rbrace ∧ braceWalk u 0 false false = some 0) := by
  refine ⟨by decide, by decide, by decide, by decide, by decide, ?_, ?_⟩
  · intro txt h
    unfold isComplete
    rw [stripChars_eq_nil_of_ws txt h]
    rfl
  · intro txt
    unfold isComplete
    dsimp only
    split
    · rename_i hnil
      rw [hnil]
      simp [unwrapQuoted, parseJsonStrLit]
    · split
      · rename_i hnone
        rw [hnone]
        simp
      · rename_i u hsome
        rw [hsome]
        simp [and_assoc]

theorem completeness_detector_correct_witness :
    isComplete (String.data " \t ") = false :=
  completeness_detector_correct.2.2.2.2.2.1 (String.data " \t ") (by decide)

/-! ### Configuration processor (`_process_device_config`) -/

/-- Python truthiness of an optional string field: `None` and the
empty string are falsy. -/
def truthy : Option String → Bool
  | none => false
  | some s => s != ""

/-- Python `a or b` on optional string values: `a` when truthy,
otherwise `b`. -/
def pyOr (a b : Option String) : Option String := if truthy a = true then a else b

/-- The `key_pair` sub-object of an inbound configuration message. -/
structure KeyPairMsg where
  publicKey : Option String
  secretKey : Option String
deriving DecidableEq, Repr

/-- A parsed device-configuration message as `_process_device_config`
reads it; the UI form sends JSON strings, so fields are modelled as
optional strings (`none` = key absent). -/
structure ConfigMsg where
  device_id : Option String
  ssid : Option String
  publicKey : Option String
  secretKey : Option String
  key_pair : Option KeyPairMsg
  wifi_password : Option String
  password : Option String
  network_id : Option String
deriving DecidableEq, Repr

/-- `cfg.get("publicKey") or (cfg.get("key_pair") or \x7b\x7d).get("publicKey")`. -/
def msgPub (cfg : ConfigMsg) : Option String :=
  pyOr cfg.publicKey (match cfg.key_pair with | some kp => kp.publicKey | none => none)

/-- `cfg.get("secretKey") or (cfg.get("key_pair") or \x7b\x7d).get("secretKey")`. -/
def msgSec (cfg : ConfigMsg) : Option String :=
  pyOr cfg.secretKey (match cfg.key_pair with | some kp => kp.secretKey | none => none)

/-- The `missing` list accumulated by `_process_device_config`. -/
def missingFields (cfg : ConfigMsg) : List String :=
  (if truthy cfg.device_id = true then [] else ["device_id"]) ++
  (if truthy cfg.ssid = true then [] else ["ssid"]) ++
  (if truthy (msgPub cfg) = true then [] else ["publicKey"])

/-- Python string slicing `s[:n]`. -/
def pyTake (n : Nat) (s : String) : String := String.mk (s.data.take n)

/-- The `key_pair` sub-record of the persisted record. -/
structure KeyPairRec where
  publicKey : String
  secretKey : String
deriving DecidableEq, Repr

/-- `DeviceConfigRecord`: the `final` dict built by
`_process_device_config`.  The structure fixes exactly the keys
`device_id`, `ssid`, `wifi_password`, `network_id` and `key_pair`
(the latter holding exactly `publicKey` and `secretKey`), all
string-valued. -/
structure DeviceConfigRecord where
  device_id : String
  ssid : String
  wifi_password : String
  network_id : String
  key_pair : KeyPairRec
deriving DecidableEq, Repr

/-- The `final` record exactly as the source builds it. -/
def buildRecord (cfg : ConfigMsg) : DeviceConfigRecord :=
  { device_id := pyTake 64 (cfg.device_id.getD "")
    ssid := pyTake 32 (cfg.ssid.getD "")
    wifi_password := pyTake 64
      (if truthy cfg.wifi_password = true then cfg.wifi_password.getD ""
       else cfg.password.getD "")
    network_id := pyTake 32 (cfg.network_id.getD "mainnet01")
    key_pair :=
      { publicKey := pyTake 128 ((msgPub cfg).getD "")
        secretKey := pyTake 128
          (if truthy (msgSec cfg) = true then (msgSec cfg).getD "" else "") } }

/-- `_STATUS_SAVED`, sent raw through `_notify_bytes`. -/
def STATUS_SAVED : String := "\x7b\"status\":\"saved\"\x7d"

/-- `_ERROR_SAVE_FAIL`, sent raw through `_notify_bytes`. -/
def ERROR_SAVE_FAIL : String := "\x7b\"status\":\"error\",\"msg\":\"save_failed\"\x7d"

/-- The missing-fields status string built inline in
`_process_device_config`. -/
def missingStatus (missing : List String) : String :=
  "\x7b\"status\":\"error\",\"msg\":\"missing:" ++ String.intercalate "," missing ++ "\"\x7d"

/-- JSON string escaping as `json.dumps` performs it on the strings at
hand (which contain no control characters). -/
def jsonEscList : List Char → List Char
  | [] => []
  | c :: rest =>
    if c = '\"' then '\\' :: '\"' :: jsonEscList rest
    else if c = '\\' then '\\' :: '\\' :: jsonEscList rest
    else c :: jsonEscList rest

/-- JSON string escaping on `String`. -/
def jsonEscStr (s : String) : String := String.mk (jsonEscList s.data)

/-- `json.dumps(\x7b"event": evt, "data": obj\x7d)` for a string `obj`, as
computed inside `_notify_json_str` (MicroPython `json.dumps` uses
CPython's default separators; the dict literal's insertion order is
assumed). -/
def dumpsEnvelope (evt obj : String) : String :=
  "\x7b\"event\": \"" ++ jsonEscStr evt ++ "\", \"data\": \"" ++ jsonEscStr obj ++ "\"\x7d"

/-- Outcome of one `_process_device_config(cfg)` call: the bytes of
each outbound notification in order, the record handed to
`save_config` (if any), the record durably persisted (if any), the
session's `_saved` flag on exit, whether a device restart was
triggered, and whether `_reset_buffer` ran. -/
structure ProcOutcome where
  outbound : List String
  handedToSave : Option DeviceConfigRecord
  persisted : Option DeviceConfigRecord
  saved : Bool
  restarted : Bool
  bufferCleared : Bool
deriving DecidableEq, Repr

/-- `_process_device_config(cfg)`.  `savedBefore` is the session's
`_saved` flag at entry, `saveOk` models whether `save_config` returns
or raises, `autoReset` is `self.auto_reset`.  On validation failure
the enveloped missing status goes out via `_notify_json_str` and
nothing is persisted; on success `save_config` gets the record, the
flag is set, the raw saved status goes out and a restart is triggered
when `autoReset`; on save failure the raw save-failed status goes out
and the flag is untouched; the buffer is cleared on every exit path. -/
def processDeviceConfig (cfg : ConfigMsg) (savedBefore saveOk autoReset : Bool) :
    ProcOutcome :=
  let missing := missingFields cfg
  if missing ≠ [] then
    { outbound := [dumpsEnvelope "data" (missingStatus missing)]
      handedToSave := none
      persisted := none
      saved := savedBefore
      restarted := false
      bufferCleared := true }
  else
    let final := buildRecord cfg
    if saveOk then
      { outbound := [STATUS_SAVED]
        handedToSave := some final
        persisted := some final
        saved := true
        restarted := autoReset
        bufferCleared := true }
    else
      { outbound := [ERROR_SAVE_FAIL]
        handedToSave := some final
        persisted := none
        saved := savedBefore
        restarted := false
        bufferCleared := true }

/-- A message with `ssid` absent (used below). -/
def cfgMissingSsid : ConfigMsg :=
  { device_id := some "d", ssid := none, publicKey := some "p", secretKey := none,
    key_pair := none, wifi_password := none, password := none, network_id := none }

/-- A message with every required field present but `device_id` empty. -/
def cfgEmptyDevice : ConfigMsg :=
  { device_id := some "", ssid := some "net", publicKey := some "p", secretKey := none,
    key_pair := none, wifi_password := none, password := none, network_id := none }

/-- A fully valid message. -/
def cfgValid : ConfigMsg :=
  { device_id := some "d1", ssid := some "network", publicKey := some "pubKey123",
    secretKey := none, key_pair := none, wifi_password := none, password := none,
    network_id := none }

lemma truthy_iff (o : Option String) :
    truthy o = true ↔ ∃ s, o = some s ∧ s ≠ "" := by
  cases o with
  | none => simp [truthy]
  | some s => simp [truthy]

lemma processDeviceConfig_missing (cfg : ConfigMsg) (sb ok ar : Bool)
    (h : missingFields cfg ≠ []) :
    processDeviceConfig cfg sb ok ar =
      { outbound := [dumpsEnvelope "data" (missingStatus (missingFields cfg))]
        handedToSave := none
        persisted := none
        saved := sb
        restarted := false
        bufferCleared := true } := by
  unfold processDeviceConfig
  dsimp only
  rw [if_pos h]

lemma pyTake_ne_empty (n : Nat) (s : String) (hn : n ≠ 0) (hs : s ≠ "") :
    pyTake n s ≠ "" := by
  intro h
  have hd : s.data.take n = [] := congrArg String.data h
  rcases List.take_eq_nil_iff.mp hd with h1 | h1
  all_goals first
  | exact hn h1
  | exact hs (String.ext h1)

/-- **C2** fails on the code: for the parsed message missing `ssid`,
the bytes delivered to the peer are the `_notify_json_str` event
envelope around the status string, not the bare fixed JSON shape that
the spec (and the code's own comment block of status strings)
promises. -/
theorem missing_notify_is_enveloped :
    (processDeviceConfig cfgMissingSsid false true true).outbound =
      [dumpsEnvelope "data" (missingStatus ["ssid"])] ∧
    dumpsEnvelope "data" (missingStatus ["ssid"]) =
      "\x7b\"event\": \"data\", \"data\": \"\x7b\\\"status\\\":\\\"error\\\",\\\"msg\\\":\\\"missing:ssid\\\"\x7d\"\x7d" ∧
    dumpsEnvelope "data" (missingStatus ["ssid"]) ≠ missingStatus ["ssid"] := by
  refine ⟨by decide, by decide, by decide⟩

/-- **C3**: a message whose `ssid` is absent or empty produces one
missing-fields notification naming `ssid`, persists nothing, leaves
the `_saved` flag untouched and clears the buffer; a message whose
`device_id` is the empty string is treated as missing `device_id`,
persists nothing, leaves the flag untouched and clears the buffer. -/
theorem validation_empty_as_missing (cfg : ConfigMsg) (sb ok ar : Bool) :
    (truthy cfg.ssid = false →
      "ssid" ∈ missingFields cfg ∧
      (processDeviceConfig cfg sb ok ar).outbound =
        [dumpsEnvelope "data" (missingStatus (missingFields cfg))] ∧
      (processDeviceConfig cfg sb ok ar).handedToSave = none ∧
      (processDeviceConfig cfg sb ok ar).persisted = none ∧
      (processDeviceConfig cfg sb ok ar).saved = sb ∧
      (processDeviceConfig cfg sb ok ar).bufferCleared = true) ∧
    (cfg.device_id = some "" →
      "device_id" ∈ missingFields cfg ∧
      (processDeviceConfig cfg sb ok ar).handedToSave = none ∧
      (processDeviceConfig cfg sb ok ar).persisted = none ∧
      (processDeviceConfig cfg sb ok ar).saved = sb ∧
      (processDeviceConfig cfg sb ok ar).bufferCleared = true) := by
  constructor
  · intro h
    have hm : "ssid" ∈ missingFields cfg := by simp [missingFields, h]
    rw [processDeviceConfig_missing cfg sb ok ar (List.ne_nil_of_mem hm)]
    exact ⟨hm, rfl, rfl, rfl, rfl, rfl⟩
  · intro h
    have ht : truthy cfg.device_id = false := by rw [h]; rfl
    have hm : "device_id" ∈ missingFields cfg := by simp [missingFields, ht]
    rw [processDeviceConfig_missing cfg sb ok ar (List.ne_nil_of_mem hm)]
    exact ⟨hm, rfl, rfl, rfl, rfl⟩

theorem validation_empty_as_missing_witness :
    "ssid" ∈ missingFields cfgMissingSsid ∧
    "device_id" ∈ missingFields cfgEmptyDevice :=
  ⟨((validation_empty_as_missing cfgMissingSsid false true true).1 (by decide)).1,
    ((validation_empty_as_missing cfgEmptyDevice false true true).2 (by decide)).1⟩

/-- **C4**: when the message validates but `save_config` fails, the
peer is notified with the raw save-failed status, nothing is
persisted, the `_saved` flag stays false, no restart is triggered, and
the buffer is cleared — the session continues as before the attempt. -/
theorem save_failure_keeps_session (cfg : ConfigMsg) (ar : Bool)
    (h : missingFields cfg = []) :
    (processDeviceConfig cfg false false ar).outbound = [ERROR_SAVE_FAIL] ∧
    (processDeviceConfig cfg false false ar).saved = false ∧
    (processDeviceConfig cfg false false ar).restarted = false ∧
    (processDeviceConfig cfg false false ar).persisted = none ∧
    (processDeviceConfig cfg false false ar).bufferCleared = true := by
  have hr : processDeviceConfig cfg false false ar =
      { outbound := [ERROR_SAVE_FAIL], handedToSave := some (buildRecord cfg)
        persisted := none, saved := false, restarted := false, bufferCleared := true } := by
    unfold processDeviceConfig
    dsimp only
    rw [if_neg (by simp [h])]
    rfl
  rw [hr]
  exact ⟨rfl, rfl, rfl, rfl, rfl⟩

theorem save_failure_keeps_session_witness :
    (processDeviceConfig cfgValid false false true).outbound = [ERROR_SAVE_FAIL] ∧
    (processDeviceConfig cfgValid false false true).saved = false ∧
    (processDeviceConfig cfgValid false false true).restarted = false ∧
    (processDeviceConfig cfgValid false false true).persisted = none ∧
    (processDeviceConfig cfgValid false false true).bufferCleared = true :=
  save_failure_keeps_session cfgValid true (by decide)

/-! ### The canonical record as the spec words it (for C8) -/

/-- Following the spec's words (§4.4 step 3): the public key is read
at top-level `publicKey`, or else nested at `key_pair.publicKey`
(empty counting as absent).  Spec-side definition, compared with
`msgPub` from the source. -/
def specPub (cfg : ConfigMsg) : Option String :=
  match cfg.publicKey with
  | some p =>
    if p = "" then (match cfg.key_pair with | some kp => kp.publicKey | none => none)
    else some p
  | none => match cfg.key_pair with | some kp => kp.publicKey | none => none

/-- Following the spec's words: the optional secret key, at top-level
`secretKey` or else nested at `key_pair.secretKey`. -/
def specSec (cfg : ConfigMsg) : Option String :=
  match cfg.secretKey with
  | some p =>
    if p = "" then (match cfg.key_pair with | some kp => kp.secretKey | none => none)
    else some p
  | none => match cfg.key_pair with | some kp => kp.secretKey | none => none

/-- The canonical persisted record as §3 and the claim describe it:
`device_id` truncated to 64 characters, `ssid` to 32, `wifi_password`
the `wifi_password` field or else the `password` field or else the
empty string truncated to 64, `network_id` the `network_id` field or
else the default literal `mainnet01` truncated to 32, the public key
truncated to 128, and the secret key if present or else the empty
string truncated to 128.  Spec-side definition, compared with
`buildRecord` from the source. -/
def specCanonicalRecord (cfg : ConfigMsg) : DeviceConfigRecord :=
  { device_id := pyTake 64 (cfg.device_id.getD "")
    ssid := pyTake 32 (cfg.ssid.getD "")
    wifi_password := pyTake 64
      (match cfg.wifi_password with
       | some w => if w = "" then cfg.password.getD "" else w
       | none => cfg.password.getD "")
    network_id := pyTake 32
      (match cfg.network_id with
       | some nid => nid
       | none => "mainnet01")
    key_pair :=
      { publicKey := pyTake 128 ((specPub cfg).getD "")
        secretKey := pyTake 128
          (match specSec cfg with
           | some sk => sk
           | none => "") } }

lemma specPub_eq (cfg : ConfigMsg) : specPub cfg = msgPub cfg := by
  unfold specPub msgPub pyOr
  cases cfg.publicKey with
  | none => simp [truthy]
  | some p =>
    by_cases hp : p = ""
    · subst hp
      simp [truthy]
    · simp [truthy, hp]

lemma specSec_eq (cfg : ConfigMsg) : specSec cfg = msgSec cfg := by
  unfold specSec msgSec pyOr
  cases cfg.secretKey with
  | none => simp [truthy]
  | some p =>
    by_cases hp : p = ""
    · subst hp
      simp [truthy]
    · simp [truthy, hp]

lemma buildRecord_eq_spec (cfg : ConfigMsg) :
    buildRecord cfg = specCanonicalRecord cfg := by
  unfold buildRecord specCanonicalRecord
  rw [specPub_eq, specSec_eq]
  simp only [DeviceConfigRecord.mk.injEq, KeyPairRec.mk.injEq, true_and, and_true]
  refine ⟨?_, ?_, ?_⟩
  · cases cfg.wifi_password with
    | none => simp [truthy]
    | some w =>
      by_cases hw : w = ""
      · subst hw
        simp [truthy]
      · simp [truthy, hw]
  · cases cfg.network_id with
    | none => rfl
    | some nid => rfl
  · cases hms : msgSec cfg with
    | none => simp [truthy, hms]
    | some sk =>
      by_cases hsk : sk = ""
      · subst hsk
        simp [truthy, hms]
      · simp [truthy, hms, hsk]

/-- **C8**: for every parsed message with non-empty `device_id`,
non-empty `ssid` and a public key at `publicKey` or nested at
`key_pair.publicKey`, the record handed to persistence is exactly the
canonical record the spec describes (field fallbacks and length
truncations included). -/
theorem canonical_record_matches_spec (cfg : ConfigMsg) (sb ok ar : Bool)
    (h1 : truthy cfg.device_id = true) (h2 : truthy cfg.ssid = true)
    (h3 : truthy (msgPub cfg) = true) :
    (processDeviceConfig cfg sb ok ar).handedToSave =
      some (specCanonicalRecord cfg) := by
  have hm : missingFields cfg = [] := by simp [missingFields, h1, h2, h3]
  have hb := buildRecord_eq_spec cfg
  unfold processDeviceConfig
  dsimp only
  rw [if_neg (by simp [hm])]
  cases ok <;> simp [hb]

theorem canonical_record_matches_spec_witness :
    (processDeviceConfig cfgValid false true true).handedToSave =
      some (specCanonicalRecord cfgValid) :=
  canonical_record_matches_spec cfgValid false true true (by decide) (by decide)
    (by decide)

/-- **C10**: every record handed to persistence has exactly the keys
`device_id`, `ssid`, `wifi_password`, `network_id`, `key_pair` with
`key_pair` holding exactly `publicKey` and `secretKey` (fixed by the
`DeviceConfigRecord` structure, all string-valued), and `device_id`,
`ssid` and `key_pair.publicKey` are non-empty: validation rejects
falsy values and truncating a non-empty string to a positive length
keeps it non-empty. -/
theorem persisted_record_wellformed (cfg : ConfigMsg) (sb ok ar : Bool)
    (r : DeviceConfigRecord)
    (h : (processDeviceConfig cfg sb ok ar).handedToSave = some r) :
    r.device_id ≠ "" ∧ r.ssid ≠ "" ∧ r.key_pair.publicKey ≠ "" := by
  by_cases hm : missingFields cfg = []
  case neg =>
    rw [processDeviceConfig_missing cfg sb ok ar hm] at h
    exact absurd h (by simp)
  case pos =>
    have hr : r = buildRecord cfg := by
      unfold processDeviceConfig at h
      dsimp only at h
      rw [if_neg (by simp [hm])] at h
      cases ok <;> (simp at h; exact h.symm)
    have hd : truthy cfg.device_id = true := by
      by_contra hc
      have hf : truthy cfg.device_id = false := by simpa using hc
      simp [missingFields, hf] at hm
    have hs : truthy cfg.ssid = true := by
      by_contra hc
      have hf : truthy cfg.ssid = false := by simpa using hc
      simp [missingFields, hf] at hm
    have hp : truthy (msgPub cfg) = true := by
      by_contra hc
      have hf : truthy (msgPub cfg) = false := by simpa using hc
      simp [missingFields, hf] at hm
    subst hr
    refine ⟨?_, ?_, ?_⟩
    · rcases (truthy_iff _).mp hd with ⟨s, hse, hsne⟩
      unfold buildRecord
      simp only [hse, Option.getD_some]
      exact pyTake_ne_empty 64 s (by decide) hsne
    · rcases (truthy_iff _).mp hs with ⟨s, hse, hsne⟩
      unfold buildRecord
      simp only [hse, Option.getD_some]
      exact pyTake_ne_empty 32 s (by decide) hsne
    · rcases (truthy_iff _).mp hp with ⟨s, hse, hsne⟩
      unfold buildRecord
      simp only [hse, Option.getD_some]
      exact pyTake_ne_empty 128 s (by decide) hsne

theorem persisted_record_wellformed_witness :
    (buildRecord cfgValid).device_id ≠ "" ∧ (buildRecord cfgValid).ssid ≠ "" ∧
    (buildRecord cfgValid).key_pair.publicKey ≠ "" :=
  persisted_record_wellformed cfgValid false true true (buildRecord cfgValid)
    (by decide)

end BleProv
